import Mathlib

/-!
Shallow embedding of the timeline-anchor news-to-speech service
(src/config.py, src/utils/voice.py, src/clients/openai.py,
src/services/write_script.py, src/services/generate_speech.py, src/api.py)
together with theorems checking the natural-language specification
against it.

External collaborators (the document store, the chat-completion service,
the text-to-speech service) and the json serialisation library are
abstracted as oracle fields of an `Upstream` structure; everything the
repository itself computes is translated definition by definition.
-/

namespace TimelineAnchor

/-- Audio bytes: an opaque finite byte sequence. -/
abbrev Bytes := List Nat

/-- Article record returned by the Article Source
(src/clients/mongodb.py projects the fields title and summary). -/
structure Article where
  title : String
  summary : String
deriving DecidableEq

/-- A role-tagged chat message (src/services/write_script.py lines 41-44). -/
structure Message where
  role : String
  content : String
deriving DecidableEq

/-- Python exceptions raised by the code under src/, by the libraries it
calls, and by the web framework. `apiError` stands for the error classes
the openai client library raises on a failed remote call, which are
distinct from ValueError / RuntimeError raised by this repository. -/
inductive PyError where
  | attributeError (attr : String)
  | valueError (msg : String)
  | runtimeError (msg : String)
  | importError (name : String)
  | environmentError (msg : String)
  | apiError (msg : String)
  | httpException (status : Nat) (detail : String)
deriving DecidableEq

/-- HTTP status a raised exception turns into at the framework boundary:
an HTTPException carries its own status, any other exception becomes 500. -/
def PyError.httpStatus : PyError → Nat
  | .httpException st _ => st
  | _ => 500

/-- Runtime settings (src/config.py lines 16-39). Fields read from
os.getenv without a default are Option-typed (they are None when the
variable is absent). chat_temperature is the float default 0.5, exactly
representable, modelled as a rational; the timezone field is the constant
timezone.utc, modelled as its name. -/
structure Settings where
  mongodb_uri : Option String
  mongodb_db : String
  mongodb_collection : String
  openai_api_key : Option String
  chat_model : String
  chat_max_tokens : Nat
  chat_temperature : Rat
  tts_model : String
  voice : String
  audio_format : String
  timezone : String
deriving DecidableEq

/-- The exact dataclass field names declared by Settings in
src/config.py lines 16-39. Python attribute access on an instance
succeeds only for these names (plus methods, of which Settings has
none); any other name raises AttributeError. -/
def Settings.fieldNames : List String :=
  [ "mongodb_uri", "mongodb_db", "mongodb_collection",
    "openai_api_key", "chat_model", "chat_max_tokens", "chat_temperature",
    "tts_model", "voice", "audio_format", "timezone" ]

/-- Settings as loaded when no environment variable overrides are present:
the literal defaults of src/config.py. -/
def defaultSettings : Settings :=
  { mongodb_uri := none
    mongodb_db := "events"
    mongodb_collection := "articles"
    openai_api_key := none
    chat_model := "gpt-4.1-mini-2025-04-14"
    chat_max_tokens := 500
    chat_temperature := 0.5
    tts_model := "gpt-4o-mini-tts"
    voice := "alloy"
    audio_format := "wav"
    timezone := "UTC" }

/-- Default settings with an OPENAI_API_KEY present, as needed for any
run that reaches the openai client. -/
def testSettings : Settings :=
  { defaultSettings with openai_api_key := some "sk-test" }

/-- The attribute access settings.voice_options performed by
src/utils/voice.py line 15. Settings declares no field of that name
(see Settings.fieldNames), so on a dataclass instance the access raises
AttributeError before any truthiness test runs; the then-branch below is
unreachable and present only to make the lookup total. -/
def Settings.voice_options (_s : Settings) : Except PyError (List String) :=
  if Settings.fieldNames.contains "voice_options" then .ok []
  else .error (.attributeError "voice_options")

/-- random_voice (src/utils/voice.py lines 12-17). `choice` abstracts
random.choice; it is only consulted if the attribute read succeeds and
yields a non-empty list. -/
def random_voice (s : Settings) (choice : List String → String) :
    Except PyError String :=
  match s.voice_options with
  | .error e => .error e
  | .ok opts =>
    if opts.isEmpty then
      .error (.valueError "No voice options configured in settings.")
    else .ok (choice opts)

/-- External collaborators, abstracted as oracles: the article documents
the mongodb query returns, the chat-completion service (arguments: model,
messages, max_tokens, exactly those passed in src/clients/openai.py lines
34-38), the text-to-speech service (arguments: model, voice, input text,
response_format, as in lines 60-64; the result is the full byte stream of
the HTTP response), and json.dumps on the article list. Oracle failures
are error-message strings, wrapped as PyError.apiError by the embedding. -/
structure Upstream where
  articles : List Article
  chatContent : String → List Message → Nat → Except String String
  ttsBytes : String → String → String → String → Except String Bytes
  jsonDumps : List Article → String

/-- fetch_last_24_hours_articles (src/services/get_news.py lines 12-14):
returns whatever the document-store query yields. -/
def fetch_last_24_hours_articles (U : Upstream) : List Article :=
  U.articles

/-- _get_client (src/clients/openai.py lines 18-26): raises
EnvironmentError when the key is None or the empty string (Python
truthiness of `not settings.openai_api_key`); otherwise the shared client
is available. -/
def get_client (s : Settings) : Except PyError Unit :=
  match s.openai_api_key with
  | none =>
    .error (.environmentError
      "OPENAI_API_KEY environment variable is required but not set.")
  | some k =>
    if k = "" then
      .error (.environmentError
        "OPENAI_API_KEY environment variable is required but not set.")
    else .ok ()

/-- Python str.strip() with no argument: remove leading and trailing
whitespace characters. -/
def pyStrip (s : String) : String :=
  String.mk
    (((s.data.dropWhile Char.isWhitespace).reverse.dropWhile
        Char.isWhitespace).reverse)

/-- chat_completion (src/clients/openai.py lines 29-39): obtains the
client, calls the chat service with the configured model and token budget,
and returns the content of the first choice stripped of surrounding
whitespace. -/
def chat_completion (U : Upstream) (s : Settings) (messages : List Message) :
    Except PyError String :=
  match get_client s with
  | .error e => .error e
  | .ok _ =>
    match U.chatContent s.chat_model messages s.chat_max_tokens with
    | .error m => .error (.apiError m)
    | .ok content => .ok (pyStrip content)

/-- PROMPT_TEMPLATE (src/services/write_script.py lines 13-27), with the
two format placeholders left in place. -/
def PROMPT_TEMPLATE : String :=
  "You are a professional news anchor. Using the list of news articles provided "
  ++ "below, select the five most impactful stories (if more than five are provided) and craft a concise, engaging script that can be read aloud verbatim. "
  ++ "Open with a brief, time-neutral greeting such as \x27Hello\x27 or \x27Good day.\x27 "
  ++ "Use smooth, conversational transitions between stories so the narration flows naturally. "
  ++ "IMPORTANT: The script will be passed directly to a text-to-speech engine. "
  ++ "Therefore, provide ONLY the words that should be spoken. "
  ++ "Do NOT include stage directions, sound-effect cues, speaker labels, or any text "
  ++ "inside brackets, parentheses, or asterisks. Do NOT wrap the script in Markdown. "
  ++ "Separate each story with a blank line for natural breathing pauses. "
  ++ "End with a concise sign-off that thanks the audience for listening. "
  ++ "Do NOT exceed {max_tokens} tokens.\n\n"
  ++ "News articles (JSON):\n{articles}\n\n"
  ++ "Script:\n"

/-- The system message content of src/services/write_script.py line 42. -/
def SYSTEM_PROMPT : String :=
  "You are an award-winning broadcast news script writer. Your job is to craft clear, engaging scripts in conversational broadcast style for a professional news anchor. Maintain a neutral, objective tone and avoid editorializing. Provide ONLY the words to be spoken—no headings, labels, stage directions, or formatting."

/-- PROMPT_TEMPLATE.format(articles=..., max_tokens=...) of
src/services/write_script.py lines 36-39: substitute both named
placeholders. -/
def PROMPT_TEMPLATE_format (articlesJson : String) (maxTokens : Nat) : String :=
  (PROMPT_TEMPLATE.replace "{articles}" articlesJson).replace
    "{max_tokens}" (toString maxTokens)

/-- create_anchor_script (src/services/write_script.py lines 30-46):
raise ValueError on an empty article list; otherwise render the prompt
with json.dumps of the articles and the configured token budget, build the
two role-tagged messages, and delegate to chat_completion. -/
def create_anchor_script (U : Upstream) (s : Settings)
    (articles : List Article) : Except PyError String :=
  if articles.isEmpty then
    .error (.valueError "No articles provided to generate script.")
  else
    let user_content :=
      PROMPT_TEMPLATE_format (U.jsonDumps articles) s.chat_max_tokens
    let messages : List Message :=
      [ { role := "system", content := SYSTEM_PROMPT },
        { role := "user", content := user_content } ]
    chat_completion U s messages

/-- Line 56 of src/clients/openai.py: voice = voice or settings.voice.
Python or falls through to the configured default both when the argument
is None and when it is the (falsy) empty string. -/
def resolveVoice (s : Settings) (voice : Option String) : String :=
  match voice with
  | none => s.voice
  | some v => if v = "" then s.voice else v

/-- Fuel-indexed worker for iterBytes: emit one chunk of at most csz bytes
per step. The fuel is instantiated with the length of the byte sequence,
which bounds the number of chunks whenever csz is positive, as it is at
the only call site (chunk_size=2048); the fuel-exhausted arm is therefore
never reached there. -/
def iterBytesAux (csz : Nat) : Nat → Bytes → List Bytes
  | _, [] => []
  | 0, bs => [bs]
  | fuel + 1, b :: bs =>
    (b :: bs).take csz :: iterBytesAux csz fuel ((b :: bs).drop csz)

/-- response.iter_bytes(chunk_size=csz) (src/clients/openai.py line 70):
re-chunk the response byte stream into consecutive slices of at most csz
bytes, in order, exhausting it. -/
def iterBytes (csz : Nat) (bs : Bytes) : List Bytes :=
  iterBytesAux csz bs.length bs

/-- What one call of generate_speech_stream does: the voice actually
passed to the speech service, and the chunks the generator yields. -/
structure SpeechCall where
  voiceUsed : String
  chunks : List Bytes
deriving DecidableEq

/-- generate_speech_stream (src/clients/openai.py lines 42-73): obtain the
client, resolve the voice, open the streaming speech request with the
configured model and audio format, and yield the response bytes in
2048-byte chunks as they arrive. -/
def generate_speech_stream (U : Upstream) (s : Settings) (text : String)
    (voice : Option String) : Except PyError SpeechCall :=
  match get_client s with
  | .error e => .error e
  | .ok _ =>
    match U.ttsBytes s.tts_model (resolveVoice s voice) text s.audio_format with
    | .error m => .error (.apiError m)
    | .ok blob =>
      .ok { voiceUsed := resolveVoice s voice, chunks := iterBytes 2048 blob }

/-- Modelled from the spec: the non-streaming variant synthesize_complete
of section 4.2 is absent from src — src/services/generate_speech.py line
10 imports generate_speech_bytes from clients/openai.py, which does not
define it. Per the spec it performs a single synthesis call and returns
the complete audio for the text as one byte blob, with the same voice
resolution, model and output format as the streaming variant. -/
def synthesize_complete (U : Upstream) (s : Settings) (text : String)
    (voice : Option String) : Except PyError Bytes :=
  match get_client s with
  | .error e => .error e
  | .ok _ =>
    match U.ttsBytes s.tts_model (resolveVoice s voice) text s.audio_format with
    | .error m => .error (.apiError m)
    | .ok blob => .ok blob

/-- The names defined at module level by src/clients/openai.py. -/
def openaiClientModuleNames : List String :=
  ["_client", "_get_client", "chat_completion", "generate_speech_stream"]

/-- Python from-import: each requested name must exist in the module,
checked left to right; the first absent name raises ImportError. -/
def importFrom (moduleNames : List String) : List String → Except PyError Unit
  | [] => .ok ()
  | n :: ns =>
    if moduleNames.contains n then importFrom moduleNames ns
    else .error (.importError n)

/-- Loading src/services/generate_speech.py executes its line 10,
from clients.openai import generate_speech, generate_speech_bytes,
generate_speech_stream; every helper in that module (including
generate_anchor_audio_bytes) is reachable only after this load succeeds. -/
def loadGenerateSpeechService : Except PyError Unit :=
  importFrom openaiClientModuleNames
    ["generate_speech", "generate_speech_bytes", "generate_speech_stream"]

/-- _run_streaming_pipeline (src/api.py lines 66-83): fetch the articles,
raise RuntimeError if none, compose the script, then yield the speech
chunks in order (generate_anchor_audio_stream of
src/services/generate_speech.py line 33 is generate_speech_stream applied
to the script with the voice parameter unspecified). The result is the
list of chunks the generator yields before it finishes, paired with the
exception it raises, if any. -/
def run_streaming_pipeline (U : Upstream) (s : Settings) :
    List Bytes × Option PyError :=
  if (fetch_last_24_hours_articles U).isEmpty then
    ([], some (.runtimeError "No articles found in the last 24 hours."))
  else
    match create_anchor_script U s (fetch_last_24_hours_articles U) with
    | .error e => ([], some e)
    | .ok script =>
      match generate_speech_stream U s script none with
      | .error e => ([], some e)
      | .ok call => (call.chunks, none)

/-- The consumer loop of stream_generator (src/api.py lines 124-139):
dequeue items in FIFO order, yielding each chunk, until the None sentinel
(or an empty queue after the producer finished) ends the loop. -/
def drainQueue : List (Option Bytes) → List Bytes
  | [] => []
  | none :: _ => []
  | some b :: rest => b :: drainQueue rest

/-- Observable outcome of one stream_generator run: the chunks yielded in
delivery order, the error logged after draining (line 141-142 only logs),
the bound passed to thread.join in the finally block (line 146), and the
exception the generator propagates after that join — none, because the
finally block contains nothing after thread.join(timeout=5) and the timed
join returns None whether or not the worker finished within the bound. -/
structure ConsumerOutcome where
  delivered : List Bytes
  loggedError : Option PyError
  joinTimeout : Nat
  raisedAfterJoin : Option PyError
deriving DecidableEq

/-- stream_generator (src/api.py lines 104-146). The producer run_pipeline
(lines 110-118) puts every chunk of run_streaming_pipeline into the queue
in production order, stores a raised exception in error_container, and in
its finally block puts the None sentinel; the consumer drains the queue,
checks error_container only to log it, and joins the worker thread with a
5 second bound. `workerFinishedWithinBound` records whether that join
completed inside the bound; no code inspects it. -/
def stream_generator (U : Upstream) (s : Settings)
    (workerFinishedWithinBound : Bool) : ConsumerOutcome :=
  let produced := run_streaming_pipeline U s
  { delivered := drainQueue (produced.1.map some ++ [none])
    loggedError := produced.2
    joinTimeout := 5
    raisedAfterJoin := none }

/-- An HTTP streaming response as assembled by the endpoint. -/
structure StreamedResponse where
  status : Nat
  media_type : String
  headers : List (String × String)
  body : List Bytes
deriving DecidableEq

/-- The StreamingResponse built by generate_anchor_stream (src/api.py
lines 150-156): status 200, media type audio/opus, the four headers set
on it, and the body produced by stream_generator. -/
def generate_anchor_stream_response (U : Upstream) (s : Settings)
    (task_id : String) (workerFinishedWithinBound : Bool) :
    StreamedResponse :=
  { status := 200
    media_type := "audio/opus"
    headers :=
      [ ("X-Task-ID", task_id),
        ("Content-Disposition", "inline; filename=news_anchor.opus"),
        ("Cache-Control", "no-cache"),
        ("Connection", "keep-alive") ]
    body := (stream_generator U s workerFinishedWithinBound).delivered }

/-- verify_api_key (src/api.py lines 41-45): raise HTTPException 401
unless the presented key equals the configured one. When ANCHOR_API_KEY
is unset, API_KEY is None and no string compares equal to it, so every
request is rejected. -/
def verify_api_key (API_KEY : Option String) (x_api_key : String) :
    Except PyError Unit :=
  if some x_api_key = API_KEY then .ok ()
  else .error (.httpException 401 "Invalid or missing API key")

/-- Outcome of one request to the endpoint: response status, whether any
pipeline work (Article Source, Composer, Producer) runs for the request,
and the streaming response when one is produced. -/
structure EndpointOutcome where
  status : Nat
  pipelineRan : Bool
  response : Option StreamedResponse
deriving DecidableEq

/-- POST /generate-anchor-stream (src/api.py lines 90-156). The
x_api_key parameter of verify_api_key is declared Header(...), required:
a request without the header is rejected by FastAPI request validation
with status 422 before the dependency or the handler runs. With the
header present, the verify_api_key dependency runs first; on rejection
the raised HTTPException becomes the response and no pipeline work runs;
on success the handler returns the 200 streaming response whose body is
the bridged pipeline run. -/
def generate_anchor_stream_endpoint (API_KEY : Option String)
    (U : Upstream) (s : Settings) (x_api_key : Option String)
    (task_id : String) (workerFinishedWithinBound : Bool) :
    EndpointOutcome :=
  match x_api_key with
  | none => { status := 422, pipelineRan := false, response := none }
  | some k =>
    match verify_api_key API_KEY k with
    | .error e => { status := e.httpStatus, pipelineRan := false, response := none }
    | .ok _ =>
      { status := 200
        pipelineRan := true
        response :=
          some (generate_anchor_stream_response U s task_id
            workerFinishedWithinBound) }

/-- An upstream whose article query finds nothing; the other oracles are
immaterial for runs that fail at the first stage. -/
def emptyUpstream : Upstream :=
  { articles := []
    chatContent := fun _ _ _ => .ok ""
    ttsBytes := fun _ _ _ _ => .ok []
    jsonDumps := fun _ => "[]" }

/-- An upstream for exercising the speech client directly. -/
def fixedUpstream : Upstream :=
  { articles := [{ title := "T1", summary := "S1" }]
    chatContent := fun _ _ _ => .ok ""
    ttsBytes := fun _ _ _ _ => .ok []
    jsonDumps := fun _ => "[]" }

/-- An upstream whose chat service answers with whitespace only, so the
stripped script is the empty string. -/
def scriptUpstream : Upstream :=
  { articles := [{ title := "Title", summary := "Summary" }]
    chatContent := fun _ _ _ => .ok "  "
    ttsBytes := fun _ _ _ _ => .ok []
    jsonDumps := fun _ => "[]" }

/-- An upstream for a fully successful streaming run: one article, a
fixed script, and nine audio bytes from the speech service. -/
def audioUpstream : Upstream :=
  { articles := [{ title := "T1", summary := "S1" }]
    chatContent := fun _ _ _ => .ok "Hello. Story one. Goodbye."
    ttsBytes := fun _ _ _ _ => .ok [65, 65, 65, 66, 66, 66, 67, 67, 67]
    jsonDumps := fun _ => "[]" }

/-! Helper lemmas. -/

/-- Draining a FIFO queue holding the produced chunks followed by the
sentinel delivers exactly the produced chunks in order. -/
theorem drainQueue_map_some (l : List Bytes) :
    drainQueue (l.map some ++ [none]) = l := by
  induction l with
  | nil => rfl
  | cons b bs ih => simp [drainQueue, ih]

/-- Concatenating the chunks cut by iterBytesAux restores the byte
sequence, for any chunk size and any fuel. -/
theorem iterBytesAux_flatten (csz : Nat) :
    ∀ (fuel : Nat) (bs : Bytes), (iterBytesAux csz fuel bs).flatten = bs := by
  intro fuel
  induction fuel with
  | zero => intro bs; cases bs <;> simp [iterBytesAux]
  | succ n ih =>
    intro bs
    cases bs with
    | nil => simp [iterBytesAux]
    | cons b rest => simp [iterBytesAux, ih]

/-- Concatenating the chunks of iter_bytes restores the byte sequence. -/
theorem iterBytes_flatten (csz : Nat) (bs : Bytes) :
    (iterBytes csz bs).flatten = bs :=
  iterBytesAux_flatten csz bs.length bs

/-- Failures of get_client are EnvironmentError, never anything else. -/
theorem get_client_error_shape (s : Settings) (e : PyError)
    (h : get_client s = .error e) : ∃ msg, e = .environmentError msg := by
  unfold get_client at h
  split at h
  · cases h
    exact ⟨_, rfl⟩
  · split at h
    · cases h
      exact ⟨_, rfl⟩
    · cases h

/-- chat_completion never raises ValueError, and every value it returns
is the upstream chat content stripped of surrounding whitespace. -/
theorem chat_completion_shape (U : Upstream) (s : Settings)
    (msgs : List Message) :
    (∀ m, chat_completion U s msgs ≠ .error (.valueError m))
    ∧ (∀ r, chat_completion U s msgs = .ok r →
        ∃ c, U.chatContent s.chat_model msgs s.chat_max_tokens = .ok c
          ∧ r = pyStrip c) := by
  constructor
  · intro m hc
    unfold chat_completion at hc
    cases hcl : get_client s with
    | error e =>
      rw [hcl] at hc
      obtain ⟨msg, rfl⟩ := get_client_error_shape s e hcl
      simp at hc
    | ok u =>
      rw [hcl] at hc
      cases ht : U.chatContent s.chat_model msgs s.chat_max_tokens with
      | error em => rw [ht] at hc; simp at hc
      | ok c => rw [ht] at hc; simp at hc
  · intro r hr
    unfold chat_completion at hr
    cases hcl : get_client s with
    | error e => rw [hcl] at hr; cases hr
    | ok u =>
      rw [hcl] at hr
      cases ht : U.chatContent s.chat_model msgs s.chat_max_tokens with
      | error em => rw [ht] at hr; cases hr
      | ok c =>
        rw [ht] at hr
        cases hr
        exact ⟨c, rfl, rfl⟩

/-! Claim theorems. -/

/-- C10: every call to random_voice raises an exception and never returns
a voice, because the Settings type defines no voice_options field for it
to read; the random-voice helper is unusable by any caller. -/
theorem random_voice_always_raises (s : Settings)
    (choice : List String → String) :
    random_voice s choice = .error (.attributeError "voice_options") := rfl

/-- C6 (code evaluated at the failing input): the non-streaming variant
cannot even be reached — loading src/services/generate_speech.py fails
with ImportError on generate_speech, since src/clients/openai.py defines
neither generate_speech nor generate_speech_bytes; so
generate_anchor_audio_bytes never returns a byte blob for any input. -/
theorem generate_speech_service_import_fails :
    loadGenerateSpeechService = .error (.importError "generate_speech") := rfl

/-- C3 counterexample: with the producer worker NOT finished when the
5-second join bound expires (workerFinishedWithinBound = false), the
bridge surfaces nothing: it raises no fault and its outcome is identical
to the run in which the join completed — it silently proceeds. -/
theorem join_timeout_not_surfaced :
    (stream_generator emptyUpstream defaultSettings false).raisedAfterJoin
        = none
    ∧ stream_generator emptyUpstream defaultSettings false
        = stream_generator emptyUpstream defaultSettings true :=
  ⟨rfl, rfl⟩

/-- C3 amended: on every outcome the producer thread is joined with a
bounded (5 second) wait in a finally block before the bridge returns,
but an expired join wait is not surfaced: the generator completes
normally regardless of whether the worker finished within the bound. -/
theorem join_bounded_but_silent (U : Upstream) (s : Settings) (b : Bool) :
    (stream_generator U s b).joinTimeout = 5
    ∧ (stream_generator U s b).raisedAfterJoin = none :=
  ⟨rfl, rfl⟩

/-- C7 counterexample: on calls with the voice parameter unspecified the
voice used is the fixed configured default settings.voice ("alloy" by
default), identically on every call — not a fresh uniform random pick
from a configured option set (Settings has no voice_options field and
generate_speech_stream never consults random_voice). -/
theorem unspecified_voice_is_fixed_default :
    generate_speech_stream fixedUpstream testSettings "first call" none
      = .ok { voiceUsed := testSettings.voice, chunks := [] }
    ∧ generate_speech_stream fixedUpstream testSettings "second call" none
      = .ok { voiceUsed := testSettings.voice, chunks := [] }
    ∧ testSettings.voice = "alloy" :=
  ⟨rfl, rfl, rfl⟩

/-- C7 amended: for every speech-synthesis call in which the
voice-selection parameter is unspecified, the voice used is the fixed
configured default settings.voice, deterministically the same on every
call; no random selection takes place. -/
theorem unspecified_voice_uses_settings_voice (U : Upstream) (s : Settings)
    (text : String) (call : SpeechCall)
    (h : generate_speech_stream U s text none = .ok call) :
    call.voiceUsed = s.voice := by
  unfold generate_speech_stream at h
  cases hcl : get_client s with
  | error e => rw [hcl] at h; exact absurd h (by simp)
  | ok u =>
    rw [hcl] at h
    cases ht : U.ttsBytes s.tts_model (resolveVoice s none) text
        s.audio_format with
    | error m => rw [ht] at h; exact absurd h (by simp)
    | ok blob =>
      rw [ht] at h
      cases h
      rfl

/-- C7 witness: a concrete unspecified-voice call through the amended
theorem. -/
theorem unspecified_voice_uses_settings_voice_witness :
    generate_speech_stream fixedUpstream testSettings "hello" none
        = .ok { voiceUsed := "alloy", chunks := [] }
    ∧ ({ voiceUsed := "alloy", chunks := [] } : SpeechCall).voiceUsed
        = testSettings.voice :=
  ⟨rfl, unspecified_voice_uses_settings_voice fixedUpstream testSettings
    "hello" _ rfl⟩

/-- C9 counterexample: the 200 streaming response carries
Content-Disposition inline; filename=news_anchor.opus, not the claimed
filename=news_anchor.mp3, and its media type is the fixed string
audio/opus, which does not match the configured audio output format
(settings.audio_format defaults to wav). -/
theorem response_headers_counterexample :
    (generate_anchor_stream_response emptyUpstream defaultSettings "tid"
        true).headers.lookup "Content-Disposition"
      = some "inline; filename=news_anchor.opus"
    ∧ "inline; filename=news_anchor.opus" ≠ "inline; filename=news_anchor.mp3"
    ∧ (generate_anchor_stream_response emptyUpstream defaultSettings "tid"
        true).media_type = "audio/opus"
    ∧ defaultSettings.audio_format = "wav"
    ∧ "audio/opus" ≠ "audio/" ++ defaultSettings.audio_format :=
  ⟨rfl, by decide, rfl, rfl, by decide⟩

/-- C9 amended: every 200 response from POST /generate-anchor-stream
carries an X-Task-ID header, Content-Disposition inline;
filename=news_anchor.opus, the cache-disabling headers Cache-Control
no-cache and Connection keep-alive, and the fixed media type audio/opus,
independent of settings.audio_format. -/
theorem response_headers_actual (U : Upstream) (s : Settings)
    (tid : String) (b : Bool) :
    (generate_anchor_stream_response U s tid b).status = 200
    ∧ (generate_anchor_stream_response U s tid b).media_type = "audio/opus"
    ∧ (generate_anchor_stream_response U s tid b).headers
        = [ ("X-Task-ID", tid),
            ("Content-Disposition", "inline; filename=news_anchor.opus"),
            ("Cache-Control", "no-cache"),
            ("Connection", "keep-alive") ] :=
  ⟨rfl, rfl, rfl⟩

/-- C5: for every run in which the Article Source returns an empty
collection, the streaming endpoint closes the stream having delivered
zero audio bytes: the delivered chunk list and the response body are
empty (and, the bridge being a total function, the stream terminates). -/
theorem empty_articles_zero_bytes (U : Upstream) (s : Settings)
    (tid : String) (b : Bool) (h : U.articles = []) :
    (stream_generator U s b).delivered = []
    ∧ (generate_anchor_stream_response U s tid b).body = [] := by
  have hp : run_streaming_pipeline U s
      = ([], some (.runtimeError "No articles found in the last 24 hours.")) := by
    unfold run_streaming_pipeline fetch_last_24_hours_articles
    rw [h]
    rfl
  refine ⟨?_, ?_⟩ <;>
    simp [generate_anchor_stream_response, stream_generator, hp, drainQueue]

/-- C5 witness: the concrete empty-article run delivers no bytes. -/
theorem empty_articles_zero_bytes_witness :
    emptyUpstream.articles = []
    ∧ ((stream_generator emptyUpstream defaultSettings true).delivered = []
       ∧ (generate_anchor_stream_response emptyUpstream defaultSettings
           "run1" true).body = []) :=
  ⟨rfl, empty_articles_zero_bytes emptyUpstream defaultSettings "run1" true rfl⟩

/-- C2 counterexample: the empty-article run raises before any byte is
sent, yet the client sees a successful empty stream: status 200 with an
empty body; the captured error is only logged on the consumer side and
nothing is raised after the join — there is no structured error
response. -/
theorem error_before_bytes_success_empty_stream :
    (generate_anchor_stream_response emptyUpstream defaultSettings "tid2"
        true).status = 200
    ∧ (generate_anchor_stream_response emptyUpstream defaultSettings "tid2"
        true).body = []
    ∧ (stream_generator emptyUpstream defaultSettings true).loggedError
        = some (.runtimeError "No articles found in the last 24 hours.")
    ∧ (stream_generator emptyUpstream defaultSettings true).raisedAfterJoin
        = none :=
  ⟨rfl, rfl, rfl, rfl⟩

/-- C2 amended: when a pipeline stage raises before any audio bytes are
sent, the error is captured on the producer side, carried across the
queue as the terminal marker, and detected by the consumer after
draining — but only logged: the client receives the already-started 200
streaming response with an empty body, not a structured error
response. -/
theorem error_before_bytes_logged_not_raised (U : Upstream) (s : Settings)
    (tid : String) (b : Bool) (e : PyError)
    (h : run_streaming_pipeline U s = ([], some e)) :
    (generate_anchor_stream_response U s tid b).status = 200
    ∧ (generate_anchor_stream_response U s tid b).body = []
    ∧ (stream_generator U s b).loggedError = some e
    ∧ (stream_generator U s b).raisedAfterJoin = none := by
  refine ⟨rfl, ?_, ?_, rfl⟩ <;>
    simp [generate_anchor_stream_response, stream_generator, h, drainQueue]

/-- C2 witness: the amended statement at the concrete empty-article
run. -/
theorem error_before_bytes_logged_not_raised_witness :
    run_streaming_pipeline emptyUpstream defaultSettings
      = ([], some (.runtimeError "No articles found in the last 24 hours."))
    ∧ ((generate_anchor_stream_response emptyUpstream defaultSettings "tid2"
          false).status = 200
       ∧ (generate_anchor_stream_response emptyUpstream defaultSettings
           "tid2" false).body = []
       ∧ (stream_generator emptyUpstream defaultSettings false).loggedError
           = some (.runtimeError "No articles found in the last 24 hours.")
       ∧ (stream_generator emptyUpstream defaultSettings
           false).raisedAfterJoin = none) :=
  ⟨rfl, error_before_bytes_logged_not_raised emptyUpstream defaultSettings
    "tid2" false _ rfl⟩

/-- C4 counterexample: a request to the streaming endpoint with the
X-API-Key header missing is rejected by request validation with status
422, not the claimed 401 (no pipeline work runs either way). -/
theorem missing_header_gets_422 :
    (generate_anchor_stream_endpoint (some "secret") emptyUpstream
        defaultSettings none "tid3" true).status = 422
    ∧ (422 : Nat) ≠ 401
    ∧ (generate_anchor_stream_endpoint (some "secret") emptyUpstream
        defaultSettings none "tid3" true).pipelineRan = false :=
  ⟨rfl, by decide, rfl⟩

/-- C4 amended: a request with a missing X-API-Key header is rejected by
request validation with 422, and a request whose key does not equal the
configured secret receives 401; in both cases no pipeline work runs —
Article Source, Script Composer and Speech Producer are never invoked. -/
theorem auth_rejection_no_pipeline (API_KEY : Option String) (U : Upstream)
    (s : Settings) (tid : String) (b : Bool) (k : String)
    (h : some k ≠ API_KEY) :
    ((generate_anchor_stream_endpoint API_KEY U s none tid b).status = 422
     ∧ (generate_anchor_stream_endpoint API_KEY U s none tid b).pipelineRan
         = false)
    ∧ ((generate_anchor_stream_endpoint API_KEY U s (some k) tid b).status
         = 401
       ∧ (generate_anchor_stream_endpoint API_KEY U s (some k) tid
           b).pipelineRan = false) := by
  refine ⟨⟨rfl, rfl⟩, ?_, ?_⟩ <;>
    simp [generate_anchor_stream_endpoint, verify_api_key, h,
      PyError.httpStatus]

/-- C4 witness: the amended statement at a concrete wrong key. -/
theorem auth_rejection_no_pipeline_witness :
    (some "wrong" ≠ some "s3cret")
    ∧ (((generate_anchor_stream_endpoint (some "s3cret") emptyUpstream
           defaultSettings none "tid4" true).status = 422
        ∧ (generate_anchor_stream_endpoint (some "s3cret") emptyUpstream
            defaultSettings none "tid4" true).pipelineRan = false)
       ∧ ((generate_anchor_stream_endpoint (some "s3cret") emptyUpstream
            defaultSettings (some "wrong") "tid4" true).status = 401
          ∧ (generate_anchor_stream_endpoint (some "s3cret") emptyUpstream
              defaultSettings (some "wrong") "tid4" true).pipelineRan
              = false)) :=
  ⟨by decide, auth_rejection_no_pipeline (some "s3cret") emptyUpstream
    defaultSettings "tid4" true "wrong" (by decide)⟩

/-- C8 counterexample: with a chat upstream answering whitespace only,
the Script Composer returns the EMPTY string for a non-empty article
collection — the claimed non-emptiness of the result does not hold on
the code, which performs no non-emptiness check. -/
theorem create_anchor_script_empty_output :
    create_anchor_script scriptUpstream testSettings
        [{ title := "Title", summary := "Summary" }] = .ok "" := rfl

/-- C8 amended: for the empty article collection the Script Composer
always fails with ValueError (InvalidInput) and never returns a value;
for a non-empty collection it never raises InvalidInput, and any value
it returns is the upstream chat content stripped of surrounding
whitespace — which is not guaranteed to be non-empty. -/
theorem create_anchor_script_contract (U : Upstream) (s : Settings)
    (articles : List Article) (h : articles ≠ []) :
    create_anchor_script U s []
        = .error (.valueError "No articles provided to generate script.")
    ∧ (∀ m, create_anchor_script U s articles ≠ .error (.valueError m))
    ∧ (∀ r, create_anchor_script U s articles = .ok r →
        ∃ c, r = pyStrip c) := by
  obtain ⟨a, as, rfl⟩ : ∃ a as, articles = a :: as := by
    cases articles with
    | nil => exact absurd rfl h
    | cons a as => exact ⟨a, as, rfl⟩
  have hcc := chat_completion_shape U s
    [ { role := "system", content := SYSTEM_PROMPT },
      { role := "user",
        content := PROMPT_TEMPLATE_format (U.jsonDumps (a :: as))
          s.chat_max_tokens } ]
  refine ⟨rfl, ?_, ?_⟩
  · intro m
    exact hcc.1 m
  · intro r hr
    obtain ⟨c, _, hc2⟩ := hcc.2 r hr
    exact ⟨c, hc2⟩

/-- C8 witness: the amended contract at one concrete non-empty article
collection. -/
theorem create_anchor_script_contract_witness :
    ([{ title := "Title", summary := "Summary" }] : List Article) ≠ []
    ∧ (create_anchor_script scriptUpstream testSettings []
          = .error (.valueError "No articles provided to generate script.")
       ∧ (∀ m, create_anchor_script scriptUpstream testSettings
            [{ title := "Title", summary := "Summary" }]
            ≠ .error (.valueError m))
       ∧ (∀ r, create_anchor_script scriptUpstream testSettings
            [{ title := "Title", summary := "Summary" }] = .ok r →
            ∃ c, r = pyStrip c)) :=
  ⟨by decide, create_anchor_script_contract scriptUpstream testSettings
    [{ title := "Title", summary := "Summary" }] (by decide)⟩

/-- C1: for every successful streaming run, concatenating the chunks
delivered by the bridge (stream_generator over the streaming pipeline) in
delivery order yields exactly the byte sequence the Speech Producer would
return from a single non-streaming synthesis call on the same script and
the same (unspecified, hence default-resolved) voice. -/
theorem stream_concat_eq_synthesize_complete (U : Upstream) (s : Settings)
    (b : Bool) (h : (run_streaming_pipeline U s).2 = none) :
    ∃ script,
      create_anchor_script U s (fetch_last_24_hours_articles U)
          = .ok script
      ∧ synthesize_complete U s script none
          = .ok ((stream_generator U s b).delivered).flatten := by
  unfold run_streaming_pipeline at h
  cases hA : (fetch_last_24_hours_articles U).isEmpty with
  | true => rw [hA] at h; simp at h
  | false =>
    simp only [hA, Bool.false_eq_true, if_false] at h
    cases hc : create_anchor_script U s (fetch_last_24_hours_articles U) with
    | error e => simp [hc] at h
    | ok script =>
      simp only [hc] at h
      cases hg : generate_speech_stream U s script none with
      | error e => simp [hg] at h
      | ok call =>
        have hpipe : run_streaming_pipeline U s = (call.chunks, none) := by
          simp [run_streaming_pipeline, hA, hc, hg]
        have hdel : (stream_generator U s b).delivered = call.chunks := by
          simp only [stream_generator]
          rw [hpipe]
          exact drainQueue_map_some call.chunks
        refine ⟨script, rfl, ?_⟩
        unfold generate_speech_stream at hg
        cases hcl : get_client s with
        | error e => rw [hcl] at hg; cases hg
        | ok u =>
          rw [hcl] at hg
          cases ht : U.ttsBytes s.tts_model (resolveVoice s none) script
              s.audio_format with
          | error m => rw [ht] at hg; cases hg
          | ok blob =>
            rw [ht] at hg
            cases hg
            rw [hdel]
            unfold synthesize_complete
            rw [hcl, ht]
            simp [iterBytes_flatten]

/-- C1 witness: a concrete successful run — one article, a fixed script,
nine audio bytes — through the theorem. -/
theorem stream_concat_eq_synthesize_complete_witness :
    (run_streaming_pipeline audioUpstream testSettings).2 = none
    ∧ ∃ script,
        create_anchor_script audioUpstream testSettings
            (fetch_last_24_hours_articles audioUpstream) = .ok script
        ∧ synthesize_complete audioUpstream testSettings script none
            = .ok ((stream_generator audioUpstream testSettings
                true).delivered).flatten :=
  ⟨rfl, stream_concat_eq_synthesize_complete audioUpstream testSettings
    true rfl⟩

end TimelineAnchor
